import Mathlib

/-!
Verification of the multi-provider dispatch-and-degrade engine of the
uOttawahackathon repository ("Agentic Compare").

The development shallowly embeds the relevant JavaScript into Lean:

* the Express server's provider adapter (`simulateAgent`, `getMockResponse`,
  `priceTable` — the second server file in `src/unnamed/part_001`, the one the
  specification's Provider Adapter sections describe);
* the React client's dispatcher and aggregator
  (`buildComparisons`, `aggregateHighlights` in `src/web/src/App.jsx`) and the
  per-combination fetch wrapper (`runAgent` in `src/web/src/services/runAgent.js`).

JavaScript numbers are modelled as exact rationals (ℚ).  Network effects are
modelled by passing the upstream outcome to the adapter as an explicit value
(`Upstream`, `FetchOutcome`): the suspension point itself carries no logic,
every branch that inspects its result is embedded verbatim.  JavaScript
truthiness (`!key`, `x || d`, `x ?? d`) is embedded by dedicated helpers so
that the distinction between `||` (falsy-default) and `??` (nullish-default)
is preserved.
-/

namespace UOttawa

/-! ## JavaScript primitive helpers -/

/-- `String.prototype.trim`: strip leading and trailing whitespace.
Implemented over the character list so that it reduces inside the kernel. -/
def jsTrim (s : String) : String :=
  String.mk (((s.data.dropWhile Char.isWhitespace).reverse.dropWhile Char.isWhitespace).reverse)

/-- Does the character list `l` start with the character list `p`? -/
def listStarts : List Char → List Char → Bool
  | _, [] => true
  | [], _ :: _ => false
  | c :: cs, d :: ds => c == d && listStarts cs ds

/-- Does the character list `l` contain `p` as a contiguous run?  Mirrors
`String.prototype.includes`. -/
def listHas : List Char → List Char → Bool
  | [], p => p.isEmpty
  | c :: cs, p => listStarts (c :: cs) p || listHas cs p

/-- `s.includes(p)` of JavaScript. -/
def strIncludes (s p : String) : Bool :=
  listHas s.data p.data

/-- `s.startsWith(p)` of JavaScript. -/
def jsStartsWith (s p : String) : Bool :=
  listStarts s.data p.data

/-- JavaScript `x || d` for a possibly-missing number `x`: `undefined` and `0`
are both falsy, so either yields the default. -/
def jsOrQ (x : Option ℚ) (d : ℚ) : ℚ :=
  match x with
  | none => d
  | some v => if v = 0 then d else v

/-- JavaScript `s || d` for strings: the empty string is falsy. -/
def jsOrStr (s d : String) : String :=
  if s = "" then d else s

/-- Truthiness of an optional `error` string property: absent (`none`) and the
empty string are falsy, any other string is truthy. -/
def errTruthy : Option String → Bool
  | none => false
  | some s => !(s == "")

/-- JavaScript `Math.round`: round half away from zero upwards, i.e. ⌊q + 1/2⌋. -/
def jsRound (q : ℚ) : ℤ :=
  ⌊q + 1 / 2⌋

/-! ## Server side: pricing table, mock path, provider adapter
(`src/unnamed/part_001`, second server file, lines 206-378) -/

/-- The static pricing table (cost per 1000 tokens), `priceTable` in the server.
Object lookup of a missing key yields `undefined`, hence `Option`. -/
def priceTable (model : String) : Option ℚ :=
  if model = "gpt-41" then some 0.004
  else if model = "claude-37" then some 0.0035
  else if model = "llama-33" then some 0.0015
  else if model = "gemini-20" then some 0.002
  else none

/-- The nested `metrics` object included in the mock response. -/
structure ServerMetrics where
  latency : ℚ
  tokens : ℚ
  cost : ℚ
  quality : ℚ
  coverage : ℚ
  safety : ℚ
  deriving DecidableEq

/-- The normalized result object a provider adapter resolves with.
`simulateAgent` never attaches an `error` property, so `error` is `none` on
every path; the mock path additionally carries a nested `metrics` object. -/
structure AgentResult where
  output : String
  tokens : ℚ
  cost : ℚ
  steps : List String
  quality : ℚ
  coverage : ℚ
  safety : ℚ
  metrics : Option ServerMetrics := none
  error : Option String := none
  deriving DecidableEq

/-- `getMockResponse(framework, task, styles)`: the deterministic Mock Path
record (the 100 ms `sleep` is a pure delay with no data effect and is omitted;
`styles` is ignored by the source as well). -/
def getMockResponse (framework task : String) : AgentResult :=
  { output := "[MOCK " ++ framework ++ " OUTPUT for \"" ++ task ++
      "\"]\n\nThis is a simulated response because no valid OpenAI key was found (or the key failed).\n\nSimulated reasoning:\n- Step 1: Mapped task to " ++
      framework ++ " nodes.\n- Step 2: Executed graph.\n- Step 3: Verified output."
    tokens := 250
    cost := 0.0025
    steps := ["Initialized " ++ framework, "Processed Input", "Generated Response", "Finalized"]
    quality := 95
    coverage := 98
    safety := 100
    metrics := some { latency := 1.5, tokens := 250, cost := 0.0025,
                      quality := 95, coverage := 98, safety := 100 }
    error := none }

/-- The structured JSON object the simulator asks the upstream model to emit
(`JSON.parse(data.choices[0].message.content)`).  `quality`/`coverage` may be
absent, hence `Option`. -/
structure SimPayload where
  output : String
  steps : List String
  logs : String
  quality : Option ℚ
  coverage : Option ℚ
  deriving DecidableEq

/-- Outcome of the upstream `fetch` inside `simulateAgent`:
a non-2xx HTTP status together with the response body text, a successful
response whose payload parsed and whose usage reported `total_tokens`, or any
thrown exception (network failure, unparseable JSON, missing usage, ...). -/
inductive Upstream where
  | httpError (status : Nat) (body : String)
  | ok (payload : SimPayload) (totalTokens : ℚ)
  | exn (msg : String)
  deriving DecidableEq

/-- The credential gate at the top of `simulateAgent` (part_001 lines 249-252):
`rawKey` is the trimmed environment variable (or `''` when absent/falsy),
`apiKey` is `rawKey` with every character that is not alphanumeric or a hyphen
removed, and the key is rejected when it is empty, does not start with `sk-`,
equals `sk-placeholder`, or the raw key contains `placeholder`. -/
def keyRejected (envKey : Option String) : Bool :=
  let rawKey := match envKey with
    | some k => jsTrim k
    | none => ""
  let apiKey := String.mk (rawKey.data.filter fun c => c.isAlphanum || c = '-')
  apiKey == "" || !(jsStartsWith apiKey ("sk-")) || apiKey == "sk-placeholder" ||
    strIncludes rawKey ("placeholder")

/-- The body of the `try` block of `simulateAgent` after the upstream call has
settled (part_001 lines 294-319): 401/429 statuses and bodies carrying the
`invalid_api_key` signature fall back to the mock; any other non-2xx status
throws; a parsed success builds the live record, pricing the *target* model. -/
def simulateAgentTry (up : Upstream) (model framework task : String) :
    Except String AgentResult :=
  match up with
  | .httpError status body =>
      if status = 401 ∨ status = 429 ∨ strIncludes body ("invalid_api_key") = true then
        .ok (getMockResponse framework task)
      else
        .error ("OpenAI error: " ++ body)
  | .exn msg => .error msg
  | .ok payload totalTokens =>
      .ok { output := payload.output ++ "\n\n---\nLOGS:\n" ++ payload.logs
            tokens := totalTokens
            cost := totalTokens / 1000 * jsOrQ (priceTable model) 0.002
            steps := payload.steps
            quality := jsOrQ payload.quality 85
            coverage := jsOrQ payload.coverage 90
            safety := 95 }

/-- `simulateAgent({task, model, framework, styles, stepsHint})`
(part_001 lines 246-327).  A rejected credential short-circuits to the Mock
Path without touching the upstream; otherwise the `try` body runs and the
function's own `catch` turns every thrown error into the Mock Path record.
`styles` and `stepsHint` only shape the prompt sent upstream and do not enter
any returned value. -/
def simulateAgent (envKey : Option String) (up : Upstream)
    (task model framework : String) (styles : List String) (stepsHint : String) :
    AgentResult :=
  if keyRejected envKey then
    getMockResponse framework task
  else
    match simulateAgentTry up model framework task with
    | .ok r => r
    | .error _ => getMockResponse framework task

/-! ## Client side: catalog data, fetch wrapper, dispatcher, aggregator
(`src/web/src/App.jsx` and `src/web/src/services/runAgent.js`) -/

/-- One entry of the `frameworks` catalog in `App.jsx`. -/
structure Framework where
  id : String
  name : String
  accent : String
  description : String
  strengths : List String
  deriving DecidableEq

/-- One entry of the `models` catalog in `App.jsx`. -/
structure Model where
  id : String
  name : String
  vendor : String
  costPer1k : ℚ
  style : String
  deriving DecidableEq

def fwLanggraph : Framework :=
  { id := "langgraph", name := "LangGraph", accent := "#8ef1ff"
    description := "Graph-first control with tool-calling and guardrails."
    strengths := ["branch-safe", "memory aware", "deterministic"] }

def fwAutogen : Framework :=
  { id := "autogen", name := "AutoGen", accent := "#f5c66d"
    description := "Conversational multi-agent orchestration with swappable runtimes."
    strengths := ["negotiation", "lightweight", "multi-round"] }

def fwCrewai : Framework :=
  { id := "crewai", name := "CrewAI", accent := "#c7a0ff"
    description := "Role-based agent crews with task decomposition and reviews."
    strengths := ["role clarity", "reviews", "handoffs"] }

def fwLlamaindex : Framework :=
  { id := "llamaindex", name := "LlamaIndex", accent := "#7df1c3"
    description := "Retrieval-centric agent graphs with observability hooks."
    strengths := ["retrieval", "evaluations", "schema aware"] }

/-- The fixed `frameworks` array of `App.jsx`. -/
def frameworks : List Framework :=
  [fwLanggraph, fwAutogen, fwCrewai, fwLlamaindex]

def mGpt41 : Model :=
  { id := "gpt-41", name := "GPT-4.1", vendor := "OpenAI", costPer1k := 0.004, style := "analysis" }

def mClaude37 : Model :=
  { id := "claude-37", name := "Claude 3.7 Sonnet", vendor := "Anthropic", costPer1k := 0.0035,
    style := "reasoned" }

def mLlama33 : Model :=
  { id := "llama-33", name := "Llama 3.3 70B", vendor := "Meta", costPer1k := 0.0015,
    style := "open-weight" }

def mGemini20 : Model :=
  { id := "gemini-20", name := "Gemini 2.0 Flash", vendor := "Google", costPer1k := 0.002,
    style := "speed" }

/-- The fixed `models` array of `App.jsx`. -/
def models : List Model :=
  [mGpt41, mClaude37, mLlama33, mGemini20]

/-- `PROVIDER_MAP` of `runAgent.js`: framework id → endpoint, missing ids give
`undefined`. -/
def providerMap (frameworkId : String) : Option String :=
  if frameworkId = "langgraph" then some ("/api/langgraph")
  else if frameworkId = "autogen" then some ("/api/autogen")
  else if frameworkId = "crewai" then some ("/api/crewai")
  else if frameworkId = "llamaindex" then some ("/api/llamaindex")
  else none

/-- The JSON body a provider route answers with, as read by `runAgent.js`
(`data.output`, `data.steps`, `data.tokens`, ..., each possibly absent). -/
structure ServerData where
  output : String
  steps : Option (List String)
  tokens : Option ℚ
  cost : Option ℚ
  quality : Option ℚ
  coverage : Option ℚ
  safety : Option ℚ
  deriving DecidableEq

/-- Outcome of the `fetch` inside `runAgent`: a parsed 2xx response, or a
non-2xx status (`!res.ok`). -/
inductive FetchOutcome where
  | ok (data : ServerData)
  | badStatus (status : Nat)
  deriving DecidableEq

/-- The per-run `metrics` object built by the client.  `safety` is optional
because the dispatch-boundary error record in `App.jsx` omits it. -/
structure RunMetrics where
  latency : ℚ
  tokens : ℚ
  cost : ℚ
  quality : ℚ
  coverage : ℚ
  safety : Option ℚ
  deriving DecidableEq

/-- What `runAgent` resolves with on success. -/
structure RunResult where
  output : String
  steps : List String
  metrics : RunMetrics
  deriving DecidableEq

/-- `runAgent({task, frameworkId, modelId})` of `runAgent.js`.  The measured
latency is an input (it comes from `performance.now()`); a missing endpoint or
a non-2xx response rejects (`Except.error` is the promise rejection carrying
the thrown error's message); `??` defaults are nullish-coalescing. -/
def runAgent (frameworkId : String) (latency : ℚ) (fetched : FetchOutcome) :
    Except String RunResult :=
  match providerMap frameworkId with
  | none => .error ("No endpoint for " ++ frameworkId)
  | some _ =>
    match fetched with
    | .badStatus status => .error ("Provider error: " ++ toString status)
    | .ok data =>
      .ok { output := data.output
            steps := data.steps.getD []
            metrics := { latency := latency
                         tokens := data.tokens.getD 0
                         cost := data.cost.getD 0
                         quality := data.quality.getD 0
                         coverage := data.coverage.getD 0
                         safety := some (data.safety.getD 0) } }

/-- One rendered run record of `App.jsx` (an element of the `runs` state). -/
structure Run where
  id : String
  framework : Framework
  model : Model
  output : String
  steps : List String
  metrics : RunMetrics
  error : Option String
  deriving DecidableEq

/-- The `results.map((res, i) => ...)` body in `buildComparisons`
(`App.jsx` lines 129-135): a fulfilled adapter call is spread into a run
record; a rejection is converted into a per-combination error record whose
metrics object lists `latency, tokens, cost, quality, coverage` only — no
`safety` property. -/
def settleRun (fw : Framework) (m : Model) : Except String RunResult → Run
  | .ok v =>
      { id := fw.id ++ "-" ++ m.id, framework := fw, model := m
        output := v.output, steps := v.steps, metrics := v.metrics, error := none }
  | .error msg =>
      { id := fw.id ++ "-" ++ m.id, framework := fw, model := m
        error := some (jsOrStr msg ("Failed"))
        metrics := { latency := 0, tokens := 0, cost := 0, quality := 0, coverage := 0,
                     safety := none }
        steps := [], output := "Error" }

/-- The `combos` list of `buildComparisons`: the selected frameworks and
models in catalog order, combined framework-major / model-minor via
`flatMap`. -/
def comboList (fwIds mIds : List String) : List (Framework × Model) :=
  (frameworks.filter fun fw => fwIds.contains fw.id).flatMap fun fw =>
    (models.filter fun m => mIds.contains m.id).map fun m => (fw, m)

/-- `buildComparisons` (`App.jsx` lines 116-136).  `Promise.allSettled`
guarantees one settled outcome per combination, index-aligned with `combos`;
the settled outcome of each combination's `runAgent` call is therefore passed
in as a function of the combination. -/
def buildComparisons (fwIds mIds : List String)
    (outcome : Framework → Model → Except String RunResult) : List Run :=
  (comboList fwIds mIds).map fun c => settleRun c.1 c.2 (outcome c.1 c.2)

/-- `runs.filter(r => !r.error)` — the valid (non-error) records. -/
def validOf (runs : List Run) : List Run :=
  runs.filter fun r => !(errTruthy r.error)

/-- The non-empty aggregate object of `aggregateHighlights`. -/
structure Highlights where
  fastest : Run
  cheapest : Run
  highestQuality : Run
  averageTokens : ℤ
  deriving DecidableEq

/-- `aggregateHighlights(runs)` (`App.jsx` lines 94-108).  The two `return {}`
paths are `none`; otherwise each highlight is the source's `reduce` with the
first valid run as initial accumulator, iterating over all valid runs. -/
def aggregateHighlights (runs : List Run) : Option Highlights :=
  if runs.length = 0 then none
  else
    match validOf runs with
    | [] => none
    | v0 :: rest =>
      some
        { fastest := (v0 :: rest).foldl
            (fun best run => if run.metrics.latency < best.metrics.latency then run else best) v0
          cheapest := (v0 :: rest).foldl
            (fun best run => if run.metrics.cost < best.metrics.cost then run else best) v0
          highestQuality := (v0 :: rest).foldl
            (fun best run => if best.metrics.quality < run.metrics.quality then run else best) v0
          averageTokens := jsRound
            (((v0 :: rest).map fun r => r.metrics.tokens).sum / (((v0 :: rest).length : ℕ) : ℚ)) }

/-! ## Generic lemmas about the source's reduce / filter / flatMap patterns -/

section FoldLemmas

variable {α : Type*} (f : α → ℚ)

/-- The `reduce`-style minimum keeps its accumulator when the accumulator is
already minimal (strict `<` never fires). -/
theorem foldl_min_keep (b : α) (l : List α) :
    (∀ y ∈ l, f b ≤ f y) →
    l.foldl (fun best run => if f run < f best then run else best) b = b := by
  induction l generalizing b with
  | nil => intro _; rfl
  | cons a l ih =>
    intro h
    have hba : ¬ f a < f b := not_lt.mpr (h a (List.mem_cons_self a l))
    simp only [List.foldl_cons, if_neg hba]
    exact ih b fun y hy => h y (List.mem_cons_of_mem a hy)

/-- The `reduce`-style minimum returns the first element attaining the
minimum: every earlier element (and the accumulator) is strictly larger, every
later element is at least as large. -/
theorem foldl_min_first (r : α) (pre : List α) :
    ∀ (b : α) (post : List α), f r < f b → (∀ p ∈ pre, f r < f p) →
    (∀ y ∈ post, f r ≤ f y) →
    (pre ++ r :: post).foldl (fun best run => if f run < f best then run else best) b = r := by
  induction pre with
  | nil =>
    intro b post hb _ hpost
    simp only [List.nil_append, List.foldl_cons, if_pos hb]
    exact foldl_min_keep f r post hpost
  | cons p pre ih =>
    intro b post hb hpre hpost
    simp only [List.cons_append, List.foldl_cons]
    by_cases hc : f p < f b
    · rw [if_pos hc]
      exact ih p post (hpre p (List.mem_cons_self p pre))
        (fun q hq => hpre q (List.mem_cons_of_mem p hq)) hpost
    · rw [if_neg hc]
      exact ih b post hb (fun q hq => hpre q (List.mem_cons_of_mem p hq)) hpost

/-- The source's `validRuns.reduce((best, run) => cond ? run : best, validRuns[0])`
pattern for a strict-`<` minimum: starting from the head of the list and
folding over the whole list yields the earliest minimal element. -/
theorem foldl_min_reduce (v0 : α) (rest pre post : List α) (r : α)
    (hsplit : v0 :: rest = pre ++ r :: post)
    (hpre : ∀ p ∈ pre, f r < f p)
    (hmin : ∀ y ∈ v0 :: rest, f r ≤ f y) :
    (v0 :: rest).foldl (fun best run => if f run < f best then run else best) v0 = r := by
  cases pre with
  | nil =>
    have h12 : v0 = r ∧ rest = post := by simpa using hsplit
    obtain ⟨h1, h2⟩ := h12
    subst h1
    subst h2
    simp only [List.foldl_cons, if_neg (lt_irrefl (f v0))]
    exact foldl_min_keep f v0 rest fun y hy => hmin y (List.mem_cons_of_mem v0 hy)
  | cons p pre2 =>
    have h12 : v0 = p ∧ rest = pre2 ++ r :: post := by simpa using hsplit
    obtain ⟨h1, h2⟩ := h12
    subst h1
    subst h2
    simp only [List.foldl_cons, if_neg (lt_irrefl (f v0))]
    exact foldl_min_first f r pre2 v0 post (hpre v0 (List.mem_cons_self v0 pre2))
      (fun q hq => hpre q (List.mem_cons_of_mem v0 hq))
      (fun y hy => hmin y (by simp only [List.mem_cons, List.mem_append]; tauto))

/-- Maximum variant of `foldl_min_keep` for the source's
`run.metrics.quality > best.metrics.quality` reduce. -/
theorem foldl_max_keep (b : α) (l : List α) :
    (∀ y ∈ l, f y ≤ f b) →
    l.foldl (fun best run => if f best < f run then run else best) b = b := by
  induction l generalizing b with
  | nil => intro _; rfl
  | cons a l ih =>
    intro h
    have hba : ¬ f b < f a := not_lt.mpr (h a (List.mem_cons_self a l))
    simp only [List.foldl_cons, if_neg hba]
    exact ih b fun y hy => h y (List.mem_cons_of_mem a hy)

/-- Maximum variant of `foldl_min_first`. -/
theorem foldl_max_first (r : α) (pre : List α) :
    ∀ (b : α) (post : List α), f b < f r → (∀ p ∈ pre, f p < f r) →
    (∀ y ∈ post, f y ≤ f r) →
    (pre ++ r :: post).foldl (fun best run => if f best < f run then run else best) b = r := by
  induction pre with
  | nil =>
    intro b post hb _ hpost
    simp only [List.nil_append, List.foldl_cons, if_pos hb]
    exact foldl_max_keep f r post hpost
  | cons p pre ih =>
    intro b post hb hpre hpost
    simp only [List.cons_append, List.foldl_cons]
    by_cases hc : f b < f p
    · rw [if_pos hc]
      exact ih p post (hpre p (List.mem_cons_self p pre))
        (fun q hq => hpre q (List.mem_cons_of_mem p hq)) hpost
    · rw [if_neg hc]
      exact ih b post hb (fun q hq => hpre q (List.mem_cons_of_mem p hq)) hpost

/-- Maximum variant of `foldl_min_reduce`. -/
theorem foldl_max_reduce (v0 : α) (rest pre post : List α) (r : α)
    (hsplit : v0 :: rest = pre ++ r :: post)
    (hpre : ∀ p ∈ pre, f p < f r)
    (hmax : ∀ y ∈ v0 :: rest, f y ≤ f r) :
    (v0 :: rest).foldl (fun best run => if f best < f run then run else best) v0 = r := by
  cases pre with
  | nil =>
    have h12 : v0 = r ∧ rest = post := by simpa using hsplit
    obtain ⟨h1, h2⟩ := h12
    subst h1
    subst h2
    simp only [List.foldl_cons, if_neg (lt_irrefl (f v0))]
    exact foldl_max_keep f v0 rest fun y hy => hmax y (List.mem_cons_of_mem v0 hy)
  | cons p pre2 =>
    have h12 : v0 = p ∧ rest = pre2 ++ r :: post := by simpa using hsplit
    obtain ⟨h1, h2⟩ := h12
    subst h1
    subst h2
    simp only [List.foldl_cons, if_neg (lt_irrefl (f v0))]
    exact foldl_max_first f r pre2 v0 post (hpre v0 (List.mem_cons_self v0 pre2))
      (fun q hq => hpre q (List.mem_cons_of_mem v0 hq))
      (fun y hy => hmax y (by simp only [List.mem_cons, List.mem_append]; tauto))

/-- A fold whose step always returns one of its two arguments stays inside
the accumulator-plus-list pool. -/
theorem foldl_choice_mem (g : α → α → α) (hg : ∀ b a, g b a = a ∨ g b a = b)
    (b : α) (l : List α) : l.foldl g b ∈ b :: l := by
  induction l generalizing b with
  | nil => exact List.mem_cons_self b []
  | cons a l ih =>
    simp only [List.foldl_cons]
    rcases List.mem_cons.mp (ih (g b a)) with he | hl
    · rcases hg b a with h | h
      · rw [he, h]
        exact List.mem_cons_of_mem b (List.mem_cons_self a l)
      · rw [he, h]
        exact List.mem_cons_self b (a :: l)
    · exact List.mem_cons_of_mem b (List.mem_cons_of_mem a hl)

end FoldLemmas

/-- Filtering a duplicate-free catalog by id-membership in a duplicate-free
selection keeps exactly one element per selected id. -/
theorem length_filter_contains {β : Type*} (g : β → String) (l : List β) :
    ∀ s : List String, (l.map g).Nodup → s.Nodup → (∀ x ∈ s, x ∈ l.map g) →
    (l.filter fun a => s.contains (g a)).length = s.length := by
  induction l with
  | nil =>
    intro s _ _ hsub
    have hs : s = [] := List.eq_nil_iff_forall_not_mem.mpr fun x hx => by
      simpa using hsub x hx
    simp [hs]
  | cons a l ih =>
    intro s hl hs hsub
    simp only [List.map_cons, List.nodup_cons] at hl
    obtain ⟨hfa, hl'⟩ := hl
    by_cases hmem : g a ∈ s
    · have hcont : s.contains (g a) = true := by simpa using hmem
      have hstep : List.filter (fun x => s.contains (g x)) (a :: l)
          = a :: List.filter (fun x => s.contains (g x)) l := by
        simp [List.filter_cons, hcont, hmem]
      rw [hstep]
      have hne : ∀ x ∈ l, (s.contains (g x)) = ((s.erase (g a)).contains (g x)) := by
        intro x hx
        have hxne : g x ≠ g a := fun he => hfa (he ▸ List.mem_map_of_mem g hx)
        by_cases hin : g x ∈ s
        · have : g x ∈ s.erase (g a) := (hs.mem_erase_iff).mpr ⟨hxne, hin⟩
          simp [hin, this]
        · have : g x ∉ s.erase (g a) := fun hc => hin ((hs.mem_erase_iff).mp hc).2
          simp [hin, this]
      rw [List.filter_congr hne]
      have hrec := ih (s.erase (g a)) hl' (hs.erase (g a)) (by
        intro x hx
        obtain ⟨hxne, hxs⟩ := (hs.mem_erase_iff).mp hx
        rcases List.mem_cons.mp (hsub x hxs) with h | h
        · exact absurd h hxne
        · exact h)
      have hlen : (s.erase (g a)).length = s.length - 1 := List.length_erase_of_mem hmem
      have hpos : 1 ≤ s.length := List.length_pos.mpr fun he => by simp [he] at hmem
      simp only [List.length_cons, hrec, hlen]
      omega
    · have hcont : s.contains (g a) = false := by simpa using hmem
      have hstep : List.filter (fun x => s.contains (g x)) (a :: l)
          = List.filter (fun x => s.contains (g x)) l := by
        simp [List.filter_cons, hcont, hmem]
      rw [hstep]
      exact ih s hl' hs (by
        intro x hx
        rcases List.mem_cons.mp (hsub x hx) with h | h
        · exact absurd (h ▸ hx) hmem
        · exact h)

/-- The framework-major / model-minor `flatMap` product has size
`|outer| * |inner|`. -/
theorem length_flatMap_pairs {α β : Type*} (l1 : List α) (l2 : List β) :
    (l1.flatMap fun a => l2.map fun b => (a, b)).length = l1.length * l2.length := by
  induction l1 with
  | nil => simp
  | cons a l1 ih =>
    simp only [List.flatMap_cons, List.length_append, List.length_map, List.length_cons, ih,
      Nat.succ_mul]
    omega

/-- Position `i * |inner| + j` of the framework-major / model-minor `flatMap`
product holds the pair of the `i`-th outer and `j`-th inner element. -/
theorem getElem?_flatMap_pairs {α β : Type*} (l2 : List β) (l1 : List α) :
    ∀ (i j : Nat) (a : α) (b : β), l1[i]? = some a → l2[j]? = some b →
    (l1.flatMap fun x => l2.map fun y => (x, y))[i * l2.length + j]? = some (a, b) := by
  induction l1 with
  | nil => intro i j a b ha _; simp at ha
  | cons x l1 ih =>
    intro i j a b ha hb
    have hj : j < l2.length := by
      by_contra hc
      rw [List.getElem?_eq_none (Nat.le_of_not_lt hc)] at hb
      exact Option.noConfusion hb
    cases i with
    | zero =>
      have hx : x = a := by simpa using ha
      simp only [List.flatMap_cons, Nat.zero_mul, Nat.zero_add]
      rw [List.getElem?_append_left (by simpa using hj), List.getElem?_map, hb, hx]
      rfl
    | succ i =>
      simp only [List.flatMap_cons]
      have hge : (l2.map fun y => (x, y)).length ≤ (i + 1) * l2.length + j := by
        simp only [List.length_map, Nat.succ_mul]
        omega
      rw [List.getElem?_append_right hge]
      have hidx : (i + 1) * l2.length + j - (l2.map fun y => (x, y)).length
          = i * l2.length + j := by
        simp only [List.length_map, Nat.succ_mul]
        omega
      rw [hidx]
      exact ih i j a b (by simpa using ha) hb

/-! ## Claims about the provider adapter (`simulateAgent`) -/

/-- Claim C3: with an absent, placeholder-valued, or structurally invalid
credential, the adapter performs no upstream call (the result does not depend
on the upstream outcome at all) and returns the fixed Mock Path record with
quality 95, coverage 98, safety 100, tokens 250, cost 0.0025 and no error
flag, for every task string. -/
theorem c3_invalid_key_mock (envKey : Option String) (up : Upstream)
    (task model framework : String) (styles : List String) (stepsHint : String)
    (h : keyRejected envKey = true) :
    simulateAgent envKey up task model framework styles stepsHint
      = getMockResponse framework task ∧
    (simulateAgent envKey up task model framework styles stepsHint).quality = 95 ∧
    (simulateAgent envKey up task model framework styles stepsHint).coverage = 98 ∧
    (simulateAgent envKey up task model framework styles stepsHint).safety = 100 ∧
    (simulateAgent envKey up task model framework styles stepsHint).tokens = 250 ∧
    (simulateAgent envKey up task model framework styles stepsHint).cost = 0.0025 ∧
    (simulateAgent envKey up task model framework styles stepsHint).error = none := by
  have he : simulateAgent envKey up task model framework styles stepsHint
      = getMockResponse framework task := by
    unfold simulateAgent
    rw [if_pos h]
  refine ⟨he, ?_, ?_, ?_, ?_, ?_, ?_⟩ <;> rw [he] <;> rfl

/-- Witness for C3: no credential at all, an upstream that would throw, and an
empty task. -/
theorem c3_invalid_key_mock_witness :
    simulateAgent none (Upstream.exn ("unreachable")) ("") ("gpt-41") ("LangGraph") [] ("")
      = getMockResponse ("LangGraph") ("") ∧
    (simulateAgent none (Upstream.exn ("unreachable")) ("") ("gpt-41") ("LangGraph") [] ("")).quality = 95 ∧
    (simulateAgent none (Upstream.exn ("unreachable")) ("") ("gpt-41") ("LangGraph") [] ("")).coverage = 98 ∧
    (simulateAgent none (Upstream.exn ("unreachable")) ("") ("gpt-41") ("LangGraph") [] ("")).safety = 100 ∧
    (simulateAgent none (Upstream.exn ("unreachable")) ("") ("gpt-41") ("LangGraph") [] ("")).tokens = 250 ∧
    (simulateAgent none (Upstream.exn ("unreachable")) ("") ("gpt-41") ("LangGraph") [] ("")).cost = 0.0025 ∧
    (simulateAgent none (Upstream.exn ("unreachable")) ("") ("gpt-41") ("LangGraph") [] ("")).error = none :=
  c3_invalid_key_mock none (Upstream.exn ("unreachable")) ("") ("gpt-41") ("LangGraph") [] ("")
    (by decide)

/-- Claim C4: with a structurally valid credential, an upstream 401 or 429
status — or a body carrying the `invalid_api_key` signature — yields exactly
the Mock Path record of the absent-credential case, never a record with the
error flag set. -/
theorem c4_auth_fallback_mock (envKey : Option String) (status : Nat) (body : String)
    (task model framework : String) (styles : List String) (stepsHint : String)
    (hkey : keyRejected envKey = false)
    (hsig : status = 401 ∨ status = 429 ∨ strIncludes body ("invalid_api_key") = true) :
    simulateAgent envKey (Upstream.httpError status body) task model framework styles stepsHint
      = getMockResponse framework task ∧
    simulateAgent envKey (Upstream.httpError status body) task model framework styles stepsHint
      = simulateAgent none (Upstream.httpError status body) task model framework styles stepsHint ∧
    (simulateAgent envKey (Upstream.httpError status body) task model framework styles
      stepsHint).error = none := by
  have hkey' : ¬ keyRejected envKey = true := by simp [hkey]
  have htry : simulateAgentTry (Upstream.httpError status body) model framework task
      = Except.ok (getMockResponse framework task) := by
    simp only [simulateAgentTry]
    rw [if_pos hsig]
  have he : simulateAgent envKey (Upstream.httpError status body) task model framework styles
      stepsHint = getMockResponse framework task := by
    unfold simulateAgent
    rw [if_neg hkey', htry]
  exact ⟨he, by rw [he]; rfl, by rw [he]; rfl⟩

/-- Witness for C4: valid-looking key, upstream HTTP 401. -/
theorem c4_auth_fallback_mock_witness :
    simulateAgent (some ("sk-test1234")) (Upstream.httpError 401 ("Unauthorized"))
      ("Summarize AI agents") ("gpt-41") ("LangGraph") [] ("")
      = getMockResponse ("LangGraph") ("Summarize AI agents") ∧
    simulateAgent (some ("sk-test1234")) (Upstream.httpError 401 ("Unauthorized"))
      ("Summarize AI agents") ("gpt-41") ("LangGraph") [] ("")
      = simulateAgent none (Upstream.httpError 401 ("Unauthorized"))
        ("Summarize AI agents") ("gpt-41") ("LangGraph") [] ("") ∧
    (simulateAgent (some ("sk-test1234")) (Upstream.httpError 401 ("Unauthorized"))
      ("Summarize AI agents") ("gpt-41") ("LangGraph") [] ("")).error = none :=
  c4_auth_fallback_mock (some ("sk-test1234")) 401 ("Unauthorized")
    ("Summarize AI agents") ("gpt-41") ("LangGraph") [] ("") (by decide) (Or.inl rfl)

/-- Claim C5: on every Live Path success the reported cost is
`tokens / 1000` times the pricing-table rate of the *target* model passed to
the adapter, with the fixed fallback rate 0.002 for unknown identifiers, where
`tokens` is the usage reported by the upstream; the simulator's own model
(`gpt-4o`) has no entry in the table at all. -/
theorem c5_live_cost (envKey : Option String) (payload : SimPayload) (totalTokens : ℚ)
    (task model framework : String) (styles : List String) (stepsHint : String)
    (hkey : keyRejected envKey = false) :
    (simulateAgent envKey (Upstream.ok payload totalTokens) task model framework styles
      stepsHint).cost = totalTokens / 1000 * jsOrQ (priceTable model) 0.002 ∧
    (simulateAgent envKey (Upstream.ok payload totalTokens) task model framework styles
      stepsHint).tokens = totalTokens ∧
    priceTable ("gpt-4o") = none := by
  have hkey' : ¬ keyRejected envKey = true := by simp [hkey]
  have he : simulateAgent envKey (Upstream.ok payload totalTokens) task model framework styles
      stepsHint = { output := payload.output ++ "\n\n---\nLOGS:\n" ++ payload.logs
                    tokens := totalTokens
                    cost := totalTokens / 1000 * jsOrQ (priceTable model) 0.002
                    steps := payload.steps
                    quality := jsOrQ payload.quality 85
                    coverage := jsOrQ payload.coverage 90
                    safety := 95 } := by
    unfold simulateAgent simulateAgentTry
    rw [if_neg hkey']
  exact ⟨by rw [he], by rw [he], rfl⟩

/-- Witness for C5: valid-looking key, upstream reports 500 total tokens, target
model `gpt-41`. -/
theorem c5_live_cost_witness :
    (simulateAgent (some ("sk-test1234"))
      (Upstream.ok { output := "out", steps := ["s1"], logs := "log",
                     quality := some 77, coverage := some 88 } 500)
      ("Summarize AI agents") ("gpt-41") ("LangGraph") [] ("")).cost
      = 500 / 1000 * jsOrQ (priceTable ("gpt-41")) 0.002 ∧
    (simulateAgent (some ("sk-test1234"))
      (Upstream.ok { output := "out", steps := ["s1"], logs := "log",
                     quality := some 77, coverage := some 88 } 500)
      ("Summarize AI agents") ("gpt-41") ("LangGraph") [] ("")).tokens = 500 ∧
    priceTable ("gpt-4o") = none :=
  c5_live_cost (some ("sk-test1234"))
    { output := "out", steps := ["s1"], logs := "log",
      quality := some 77, coverage := some 88 } 500
    ("Summarize AI agents") ("gpt-41") ("LangGraph") [] ("") (by decide)

/-- Claim C10: on a Live Path success whose upstream payload *reports*
`quality: 0` the adapter returns quality 85 (and a reported `coverage: 0`
comes back as 90): the `||`-fallback conflates a reported zero with a missing
field. -/
theorem c10_zero_scores_overwritten (envKey : Option String) (payload : SimPayload)
    (totalTokens : ℚ) (task model framework : String) (styles : List String)
    (stepsHint : String)
    (hkey : keyRejected envKey = false)
    (hq : payload.quality = some 0) (hc : payload.coverage = some 0) :
    (simulateAgent envKey (Upstream.ok payload totalTokens) task model framework styles
      stepsHint).quality = 85 ∧
    (simulateAgent envKey (Upstream.ok payload totalTokens) task model framework styles
      stepsHint).coverage = 90 := by
  have hkey' : ¬ keyRejected envKey = true := by simp [hkey]
  have he : simulateAgent envKey (Upstream.ok payload totalTokens) task model framework styles
      stepsHint = { output := payload.output ++ "\n\n---\nLOGS:\n" ++ payload.logs
                    tokens := totalTokens
                    cost := totalTokens / 1000 * jsOrQ (priceTable model) 0.002
                    steps := payload.steps
                    quality := jsOrQ payload.quality 85
                    coverage := jsOrQ payload.coverage 90
                    safety := 95 } := by
    unfold simulateAgent simulateAgentTry
    rw [if_neg hkey']
  constructor
  · rw [he]
    show jsOrQ payload.quality 85 = 85
    rw [hq]
    simp [jsOrQ]
  · rw [he]
    show jsOrQ payload.coverage 90 = 90
    rw [hc]
    simp [jsOrQ]

/-- Witness for C10: the upstream reports quality 0 and coverage 0; the caller
sees 85 and 90. -/
theorem c10_zero_scores_overwritten_witness :
    (simulateAgent (some ("sk-test1234"))
      (Upstream.ok { output := "out", steps := ["s1"], logs := "log",
                     quality := some 0, coverage := some 0 } 500)
      ("Summarize AI agents") ("gpt-41") ("LangGraph") [] ("")).quality = 85 ∧
    (simulateAgent (some ("sk-test1234"))
      (Upstream.ok { output := "out", steps := ["s1"], logs := "log",
                     quality := some 0, coverage := some 0 } 500)
      ("Summarize AI agents") ("gpt-41") ("LangGraph") [] ("")).coverage = 90 :=
  c10_zero_scores_overwritten (some ("sk-test1234"))
    { output := "out", steps := ["s1"], logs := "log",
      quality := some 0, coverage := some 0 } 500
    ("Summarize AI agents") ("gpt-41") ("LangGraph") [] ("") (by decide) rfl rfl

/-- The adapter result for a valid-looking credential and an upstream HTTP 500
whose body does not carry the auth/quota fallback signature — the concrete
input of claim C2's scenario. -/
def c2Result : AgentResult :=
  simulateAgent (some ("sk-test1234")) (Upstream.httpError 500 ("Internal Server Error"))
    ("Summarize AI agents") ("gpt-41") ("LangGraph") [] ("")

/-- Claim C2 as stated is false: on HTTP 500 the adapter does *not* return a
minimal zero-metric error record — `simulateAgent` throws internally, but its
own `catch` recovers to the Mock Path record (tokens 250, no error flag). -/
theorem c2_claim_counterexample :
    ¬ (c2Result.tokens = 0 ∧ c2Result.cost = 0 ∧ c2Result.quality = 0 ∧
       c2Result.coverage = 0 ∧ c2Result.safety = 0 ∧ c2Result.steps = [] ∧
       c2Result.error ≠ none) :=
  fun h => absurd h.1 (by decide)

/-- Claim C2 amended: on a non-2xx status other than 401/429 whose body does
not contain the `invalid_api_key` signature, the adapter returns the Mock Path
record (the internal throw is swallowed by the adapter's own catch-all). -/
theorem c2_amended_http_error_mock (envKey : Option String) (status : Nat) (body : String)
    (task model framework : String) (styles : List String) (stepsHint : String)
    (hkey : keyRejected envKey = false)
    (h401 : status ≠ 401) (h429 : status ≠ 429)
    (hsig : strIncludes body ("invalid_api_key") = false) :
    simulateAgent envKey (Upstream.httpError status body) task model framework styles stepsHint
      = getMockResponse framework task := by
  have hkey' : ¬ keyRejected envKey = true := by simp [hkey]
  have hcond : ¬ (status = 401 ∨ status = 429 ∨ strIncludes body ("invalid_api_key") = true) := by
    rintro (h | h | h)
    · exact h401 h
    · exact h429 h
    · rw [hsig] at h
      exact Bool.noConfusion h
  have htry : simulateAgentTry (Upstream.httpError status body) model framework task
      = Except.error ("OpenAI error: " ++ body) := by
    simp only [simulateAgentTry]
    rw [if_neg hcond]
  unfold simulateAgent
  rw [if_neg hkey', htry]

/-- Witness for the amended C2: the HTTP 500 input of the counterexample indeed
lands on the Mock Path record. -/
theorem c2_amended_http_error_mock_witness :
    simulateAgent (some ("sk-test1234")) (Upstream.httpError 500 ("Internal Server Error"))
      ("Summarize AI agents") ("gpt-41") ("LangGraph") [] ("")
      = getMockResponse ("LangGraph") ("Summarize AI agents") :=
  c2_amended_http_error_mock (some ("sk-test1234")) 500 ("Internal Server Error")
    ("Summarize AI agents") ("gpt-41") ("LangGraph") [] ("")
    (by decide) (by decide) (by decide) (by decide)

/-! ## Claim about the dispatch-boundary error record (C9) -/

/-- Claim C9 is violated by the code: when a combination's `runAgent` call
rejects (here: the provider route answers HTTP 500, so `runAgent` throws
`Provider error: 500`), the dispatch boundary converts the rejection into an
error record whose `metrics` object has *no* `safety` field at all — not a
number in [0, 100]. -/
theorem c9_error_record_missing_safety :
    runAgent ("langgraph") 1 (FetchOutcome.badStatus 500)
      = Except.error ("Provider error: 500") ∧
    (settleRun fwLanggraph mGpt41 (Except.error ("Provider error: 500"))).metrics.safety
      = none ∧
    (settleRun fwLanggraph mGpt41 (Except.error ("Provider error: 500"))).error
      = some ("Provider error: 500") := by
  refine ⟨?_, rfl, ?_⟩
  · rfl
  · rfl

/-! ## Claims about the aggregator (`aggregateHighlights`) -/

/-- Claim C6: when no record of the input is free of the error flag (every
record carries a non-empty error message) — including the empty input — the
aggregator returns the explicit empty state `{}` (modelled as `none`), which
has no `fastest`/`cheapest`/`highestQuality`/`averageTokens` fields at all,
so none of them can be `NaN` or `undefined`. -/
theorem c6_all_error_empty (runs : List Run)
    (h : ∀ r ∈ runs, errTruthy r.error = true) :
    aggregateHighlights runs = none := by
  cases runs with
  | nil => rfl
  | cons a l =>
    have hv : validOf (a :: l) = [] := by
      apply List.filter_eq_nil_iff.mpr
      intro r hr
      simp [h r hr]
    unfold aggregateHighlights
    rw [if_neg (by simp : ¬ (a :: l).length = 0), hv]

/-- A dispatch-boundary error record, as `settleRun` builds it for a rejected
combination. -/
def sampleErrRun : Run :=
  { id := "langgraph-gpt-41", framework := fwLanggraph, model := mGpt41
    output := "Error", steps := []
    metrics := { latency := 0, tokens := 0, cost := 0, quality := 0, coverage := 0,
                 safety := none }
    error := some ("Failed") }

/-- Witness for C6: a one-element input whose only record is an error record. -/
theorem c6_all_error_empty_witness :
    aggregateHighlights [sampleErrRun] = none :=
  c6_all_error_empty [sampleErrRun] (by decide)

set_option maxHeartbeats 2000000 in
/-- Claim C7: the aggregator's extrema use first-extremal tie-breaking over
the valid records: if `r1` is the earliest valid record of minimal latency
(everything before it is strictly slower, nothing is faster), it is chosen as
`fastest`; the same first-minimal rule picks `cheapest` by cost and the
first-maximal rule picks `highestQuality` by quality. -/
theorem c7_agg_first_extremal (runs : List Run)
    (pre1 post1 pre2 post2 pre3 post3 : List Run) (r1 r2 r3 : Run)
    (h1 : validOf runs = pre1 ++ r1 :: post1)
    (h1pre : ∀ p ∈ pre1, r1.metrics.latency < p.metrics.latency)
    (h1min : ∀ y ∈ validOf runs, r1.metrics.latency ≤ y.metrics.latency)
    (h2 : validOf runs = pre2 ++ r2 :: post2)
    (h2pre : ∀ p ∈ pre2, r2.metrics.cost < p.metrics.cost)
    (h2min : ∀ y ∈ validOf runs, r2.metrics.cost ≤ y.metrics.cost)
    (h3 : validOf runs = pre3 ++ r3 :: post3)
    (h3pre : ∀ p ∈ pre3, p.metrics.quality < r3.metrics.quality)
    (h3max : ∀ y ∈ validOf runs, y.metrics.quality ≤ r3.metrics.quality) :
    ∃ hl, aggregateHighlights runs = some hl ∧
      hl.fastest = r1 ∧ hl.cheapest = r2 ∧ hl.highestQuality = r3 := by
  have hne : ¬ runs.length = 0 := by
    intro h0
    rw [List.length_eq_zero.mp h0] at h1
    cases pre1 <;> simp [validOf] at h1
  obtain ⟨v0, rest, hv⟩ : ∃ v0 rest, validOf runs = v0 :: rest := by
    cases hvr : validOf runs with
    | nil =>
      rw [hvr] at h1
      cases pre1 <;> simp at h1
    | cons v0 rest => exact ⟨v0, rest, rfl⟩
  unfold aggregateHighlights
  rw [if_neg hne, hv]
  refine ⟨_, rfl, ?_, ?_, ?_⟩
  · exact foldl_min_reduce (fun r => r.metrics.latency) v0 rest pre1 post1 r1
      (hv.symm.trans h1) h1pre (fun y hy => h1min y (by rw [hv]; exact hy))
  · exact foldl_min_reduce (fun r => r.metrics.cost) v0 rest pre2 post2 r2
      (hv.symm.trans h2) h2pre (fun y hy => h2min y (by rw [hv]; exact hy))
  · exact foldl_max_reduce (fun r => r.metrics.quality) v0 rest pre3 post3 r3
      (hv.symm.trans h3) h3pre (fun y hy => h3max y (by rw [hv]; exact hy))

/-- A successful run record; ties with `sampleRunB` on latency, cost and
quality. -/
def sampleRunA : Run :=
  { id := "a", framework := fwLanggraph, model := mGpt41, output := "out-a", steps := []
    metrics := { latency := 1, tokens := 100, cost := 2, quality := 80, coverage := 90,
                 safety := some 95 }
    error := none }

/-- A second successful run record with the same latency, cost and quality as
`sampleRunA`. -/
def sampleRunB : Run :=
  { id := "b", framework := fwAutogen, model := mGpt41, output := "out-b", steps := []
    metrics := { latency := 1, tokens := 200, cost := 2, quality := 80, coverage := 90,
                 safety := some 95 }
    error := none }

/-- Witness for C7: two valid records tied on latency, cost and quality; the
earlier one wins all three highlights. -/
theorem c7_agg_first_extremal_witness :
    ∃ hl, aggregateHighlights [sampleRunA, sampleRunB] = some hl ∧
      hl.fastest = sampleRunA ∧ hl.cheapest = sampleRunA ∧ hl.highestQuality = sampleRunA :=
  c7_agg_first_extremal [sampleRunA, sampleRunB]
    [] [sampleRunB] [] [sampleRunB] [] [sampleRunB] sampleRunA sampleRunA sampleRunA
    rfl (by decide) (by decide) rfl (by decide) (by decide) rfl (by decide) (by decide)

/-- Claim C8: whenever the aggregator returns highlights, `highestQuality` is
drawn from the records without the error flag (a failed record never wins the
extremum), and `averageTokens` is `Math.round` of the arithmetic mean of
`tokens` over the non-error records only. -/
theorem c8_agg_ignores_failed (runs : List Run) (hne : validOf runs ≠ []) :
    ∃ hl, aggregateHighlights runs = some hl ∧
      hl.highestQuality ∈ validOf runs ∧
      errTruthy hl.highestQuality.error = false ∧
      hl.averageTokens = jsRound (((validOf runs).map fun r => r.metrics.tokens).sum
        / (((validOf runs).length : ℕ) : ℚ)) := by
  have hlen : ¬ runs.length = 0 := by
    intro h0
    rw [List.length_eq_zero.mp h0] at hne
    exact hne rfl
  obtain ⟨v0, rest, hv⟩ : ∃ v0 rest, validOf runs = v0 :: rest := by
    cases hvr : validOf runs with
    | nil => exact absurd hvr hne
    | cons v0 rest => exact ⟨v0, rest, rfl⟩
  have hmem : ((v0 :: rest).foldl
      (fun best run => if best.metrics.quality < run.metrics.quality then run else best) v0)
      ∈ v0 :: rest := by
    have hstep := foldl_choice_mem
      (fun best run => if best.metrics.quality < run.metrics.quality then run else best)
      (fun b a => by by_cases hba : b.metrics.quality < a.metrics.quality <;> simp [hba])
      v0 (v0 :: rest)
    rcases List.mem_cons.mp hstep with he | hm
    · rw [he]
      exact List.mem_cons_self v0 rest
    · exact hm
  have hmemv : ((v0 :: rest).foldl
      (fun best run => if best.metrics.quality < run.metrics.quality then run else best) v0)
      ∈ validOf runs := by
    rw [hv]
    exact hmem
  have hp := List.of_mem_filter hmemv
  simp only [Bool.not_eq_true'] at hp
  unfold aggregateHighlights
  rw [if_neg hlen, hv]
  exact ⟨_, rfl, hmem, hp, rfl⟩

/-- Witness for C8: one successful record (quality 80) and one error record;
the successful one carries the quality extremum and the token mean ranges over
it alone. -/
theorem c8_agg_ignores_failed_witness :
    ∃ hl, aggregateHighlights [sampleRunA, sampleErrRun] = some hl ∧
      hl.highestQuality ∈ validOf [sampleRunA, sampleErrRun] ∧
      errTruthy hl.highestQuality.error = false ∧
      hl.averageTokens = jsRound (((validOf [sampleRunA, sampleErrRun]).map
        fun r => r.metrics.tokens).sum
        / (((validOf [sampleRunA, sampleErrRun]).length : ℕ) : ℚ)) :=
  c8_agg_ignores_failed [sampleRunA, sampleErrRun] (by decide)

/-! ## Claim about the dispatcher (`buildComparisons`, C1) -/

/-- Claim C1: for a batch request whose framework and model selections are
duplicate-free subsets of the catalogs (selections are sets drawn from the
fixed enumerations), the dispatcher returns exactly
`|frameworkIds| * |modelIds|` records, and the record at position
`i * |pickedModels| + j` is the settled outcome of the `i`-th selected
framework with the `j`-th selected model — the framework-major, model-minor
cartesian product order, independent of settle order (`Promise.allSettled`
index alignment is the `outcome` function). -/
theorem c1_dispatch_product (fwIds mIds : List String)
    (outcome : Framework → Model → Except String RunResult)
    (hfn : fwIds.Nodup) (hfs : ∀ x ∈ fwIds, x ∈ frameworks.map Framework.id)
    (hmn : mIds.Nodup) (hms : ∀ x ∈ mIds, x ∈ models.map Model.id)
    (i j : Nat) (fw : Framework) (m : Model)
    (hi : (frameworks.filter fun fr => fwIds.contains fr.id)[i]? = some fw)
    (hj : (models.filter fun mo => mIds.contains mo.id)[j]? = some m) :
    (buildComparisons fwIds mIds outcome).length = fwIds.length * mIds.length ∧
    (buildComparisons fwIds mIds outcome)[i *
        (models.filter fun mo => mIds.contains mo.id).length + j]?
      = some (settleRun fw m (outcome fw m)) := by
  constructor
  · unfold buildComparisons comboList
    rw [List.length_map, length_flatMap_pairs,
      length_filter_contains Framework.id frameworks fwIds (by decide) hfn hfs,
      length_filter_contains Model.id models mIds (by decide) hmn hms]
  · unfold buildComparisons comboList
    rw [List.getElem?_map,
      getElem?_flatMap_pairs (models.filter fun mo => mIds.contains mo.id)
        (frameworks.filter fun fr => fwIds.contains fr.id) i j fw m hi hj]
    rfl

/-- Witness for C1: frameworks `langgraph` and `autogen` with the single model
`gpt-41`; the record at index 1 (= 1 * 1 + 0) is the `autogen`/`gpt-41`
combination even though every adapter call rejects. -/
theorem c1_dispatch_product_witness :
    (buildComparisons ["langgraph", "autogen"] ["gpt-41"]
      fun _ _ => Except.error ("boom")).length = 2 * 1 ∧
    (buildComparisons ["langgraph", "autogen"] ["gpt-41"]
      fun _ _ => Except.error ("boom"))[1]?
      = some (settleRun fwAutogen mGpt41 (Except.error ("boom"))) :=
  c1_dispatch_product ["langgraph", "autogen"] ["gpt-41"]
    (fun _ _ => Except.error ("boom"))
    (by decide) (by decide) (by decide) (by decide) 1 0 fwAutogen mGpt41 rfl rfl

end UOttawa
